import Mathlib

/-!
Shallow embedding of the dApp connection & transaction approval protocol
(`src/lib/thanos/back/dapp.ts`) and proofs about it.

External collaborators (the known-network list, the address validator, the
vault, the forging/decoding library, the RPC client) are out of scope of the
source file and are passed in as parameters; every definition below is a
direct translation of the corresponding TypeScript in `dapp.ts`.

JavaScript exceptions are modelled with `Except JsError`; a thrown
`TypeError` from dereferencing a missing value (the non-null assertion in
`getNetworkRPC`) is `JsError.typeError`.
-/

namespace ThanosDApp

/-- Error codes of `ThanosDAppErrorType` (stable wire codes, exact string
values are owned by the external `@thanos-wallet/dapp` package). -/
inductive ThanosDAppErrorType where
  | InvalidParams
  | NotGranted
  | NotFound
  | TezosOperation
deriving DecidableEq, Repr

/-- A JS error message: either one of the stable `ThanosDAppErrorType` codes
or free node/runtime text. -/
inductive ErrMsg where
  | code (t : ThanosDAppErrorType)
  | text (s : String)
deriving DecidableEq, Repr

/-- JS error values thrown by the protocol code: a plain `new Error(msg)`, a
`TezosOperationError` from the taquito collaborator (distinguished by
`instanceof`), or an untyped runtime `TypeError` (e.g. reading a property of
`undefined`). -/
inductive JsError where
  | error (m : ErrMsg)
  | tezosOperationError (m : ErrMsg)
  | typeError
deriving DecidableEq, Repr

/-- Whether an error is a `TezosOperationError` (`err instanceof
TezosOperationError`). -/
def JsError.isTezosOpError : JsError → Bool
  | .tezosOperationError _ => true
  | _ => false

/-- One entry of the external `NETWORKS` list (`lib/thanos/networks`):
only the fields `dapp.ts` reads. -/
structure ThanosNetwork where
  id : String
  rpcBaseURL : String
  disabled : Bool
deriving DecidableEq, Repr

/-- `ThanosDAppNetwork`: either a known-network id (a string) or an inline
descriptor carrying an RPC endpoint. -/
inductive ThanosDAppNetwork where
  | id (s : String)
  | custom (rpc : String)
deriving DecidableEq, Repr

/-- `ThanosDAppMetadata` — the protocol only reads `name`. -/
structure ThanosDAppMetadata where
  name : String
deriving DecidableEq, Repr

/-- A persisted per-origin session (`ThanosDAppSession`). -/
structure ThanosDAppSession where
  network : ThanosDAppNetwork
  appMeta : ThanosDAppMetadata
  pkh : String
  publicKey : String
deriving DecidableEq, Repr

/-- The granted-permission triple returned to requesters. -/
structure DAppPermission where
  rpc : String
  pkh : String
  publicKey : String
deriving DecidableEq, Repr

/-- `getNetworkRPC` (dapp.ts:482-486). For a string id it looks the id up in
`NETWORKS` and dereferences the result with a non-null assertion: when the id
is absent, JS throws a `TypeError`, modelled as `.error .typeError`. -/
def getNetworkRPC (networks : List ThanosNetwork) :
    ThanosDAppNetwork → Except JsError String
  | .id s =>
    match networks.find? (fun n => n.id == s) with
    | some n => .ok n.rpcBaseURL
    | none => .error .typeError
  | .custom rpc => .ok rpc

/-- `isAllowedNetwork` (dapp.ts:488-492). A string id must name a
non-disabled known network; an inline descriptor must have a truthy (i.e.
non-empty) `rpc`. -/
def isAllowedNetwork (networks : List ThanosNetwork) :
    ThanosDAppNetwork → Bool
  | .id s => networks.any (fun n => !n.disabled && n.id == s)
  | .custom rpc => rpc != ""

/-- `isNetworkEquals` (dapp.ts:494-498). Two inline descriptors are compared
by `rpc`; otherwise strict equality, so two string ids compare by value and
a string id never equals an inline descriptor. -/
def isNetworkEquals : ThanosDAppNetwork → ThanosDAppNetwork → Bool
  | .custom r1, .custom r2 => r1 == r2
  | .id s1, .id s2 => s1 == s2
  | _, _ => false

/-- The persisted sessions document: origin → session (`dapp_sessions`). -/
def Sessions : Type := String → Option ThanosDAppSession

/-- `setDApp` (dapp.ts:358-363): whole-document read-modify-write replacing
one key (`\x7b...current, [origin]: permissions\x7d`). -/
def setDApp (sessions : Sessions) (origin : String)
    (permissions : ThanosDAppSession) : Sessions :=
  fun o => if o = origin then some permissions else sessions o

/-- `getCurrentPermission` (dapp.ts:44-59): look the session up; absent
session yields a `null` permission; otherwise derive the `rpc` via
`getNetworkRPC` (which may crash on a stale string id). -/
def getCurrentPermission (networks : List ThanosNetwork)
    (sessions : Sessions) (origin : String) :
    Except JsError (Option DAppPermission) :=
  match sessions origin with
  | none => .ok none
  | some dApp =>
    (getNetworkRPC networks dApp.network).map
      (fun rpc => some ⟨rpc, dApp.pkh, dApp.publicKey⟩)

/-- Observable protocol-level side effects of an arbiter, in order: the
session-store read (`getDApp`), opening a confirmation surface
(`requestConfirm`), injecting signed bytes (`rpc.injectOperation`). -/
inductive ArbEffect where
  | storageRead
  | openConfirm
  | injectBytes
deriving DecidableEq, Repr

/-- Outcome of running an arbiter up to (and excluding) the human decision:
it threw a protocol error to the caller, it is awaiting a confirmation
carrying this payload, or an exception escaped inside the promise executor
(the call neither settles nor opens a confirmation). -/
inductive ArbiterOutcome (α : Type) where
  | failed (e : JsError)
  | awaiting (p : α)
  | crashed (e : JsError)
deriving DecidableEq, Repr

/-- `RequestPermission` input (`ThanosDAppPermissionRequest`): a missing
`force` is falsy, modelled as `false`. -/
structure ThanosDAppPermissionRequest where
  network : ThanosDAppNetwork
  appMeta : ThanosDAppMetadata
  force : Bool
deriving DecidableEq, Repr

/-- The `connect` confirmation payload (dapp.ts:96-101). -/
structure ConnectPayload where
  origin : String
  networkRpc : String
  appMeta : ThanosDAppMetadata
deriving DecidableEq, Repr

/-- Outcome of `requestPermission` up to the human decision. -/
inductive PermOutcome where
  | granted (p : DAppPermission)
  | failed (e : JsError)
  | awaiting (c : ConnectPayload)
deriving DecidableEq, Repr

/-- `requestPermission` (dapp.ts:61-140) up to the human decision:
validation (`isAllowedNetwork`, appMeta name — the latter is a string by
typing here), `networkRpc` computation, session lookup, and the fast path
that returns the existing grant without opening a confirmation when the
session matches the requested network and app name and `force` is unset. -/
def requestPermissionRun (networks : List ThanosNetwork)
    (sessions : Sessions) (origin : String)
    (req : ThanosDAppPermissionRequest) : List ArbEffect × PermOutcome :=
  if !(isAllowedNetwork networks req.network) then
    ([], .failed (.error (.code .InvalidParams)))
  else
    match getNetworkRPC networks req.network with
    | .error e => ([], .failed e)
    | .ok networkRpc =>
      match sessions origin with
      | some dApp =>
        if !req.force && isNetworkEquals req.network dApp.network &&
            (req.appMeta.name == dApp.appMeta.name) then
          ([.storageRead], .granted ⟨networkRpc, dApp.pkh, dApp.publicKey⟩)
        else
          ([.storageRead, .openConfirm],
           .awaiting ⟨origin, networkRpc, req.appMeta⟩)
      | none =>
        ([.storageRead, .openConfirm],
         .awaiting ⟨origin, networkRpc, req.appMeta⟩)

/-- The approval branch of `requestPermission`'s intercom handler
(dapp.ts:115-127): persist the new session via `setDApp`, then resolve with
the grant whose `rpc` is the `networkRpc` computed from `req.network`.
Returns the updated sessions document and the resolution value. -/
def permApproveStep (networks : List ThanosNetwork) (sessions : Sessions)
    (origin : String) (req : ThanosDAppPermissionRequest)
    (accountPublicKeyHash accountPublicKey : String) :
    Sessions × Except JsError DAppPermission :=
  match getNetworkRPC networks req.network with
  | .error e => (sessions, .error e)
  | .ok networkRpc =>
    (setDApp sessions origin
      ⟨req.network, req.appMeta, accountPublicKeyHash, accountPublicKey⟩,
     .ok ⟨networkRpc, accountPublicKeyHash, accountPublicKey⟩)

/-- One element of `req.opParams`: the protocol only checks that `kind` is a
string (`none` models a missing or non-string `kind`). -/
structure ThanosOpParam where
  kind : Option String
deriving DecidableEq, Repr

/-- `RequestOperation` input (`ThanosDAppOperationRequest`). -/
structure ThanosDAppOperationRequest where
  sourcePkh : String
  opParams : List ThanosOpParam
deriving DecidableEq, Repr

/-- The validation of `requestOperation` (dapp.ts:146-154): valid source
address, non-empty `opParams`, every element with a string `kind`. -/
def opsParamsValid (isAddressValid : String → Bool)
    (req : ThanosDAppOperationRequest) : Bool :=
  isAddressValid req.sourcePkh && decide (0 < req.opParams.length) &&
    req.opParams.all (fun op => op.kind.isSome)

/-- The `confirm_operations` confirmation payload (dapp.ts:172-180). -/
structure OperationPayload where
  origin : String
  networkRpc : String
  appMeta : ThanosDAppMetadata
  sourcePkh : String
  sourcePublicKey : String
  opParams : List ThanosOpParam
deriving DecidableEq, Repr

/-- `requestOperation` (dapp.ts:142-225) up to the human decision:
validation throws `InvalidParams` before the session-store read; a missing
session throws `NotGranted`; a `sourcePkh` different from the session's
throws `NotFound`; otherwise the confirmation opens with the operation
payload. A `getNetworkRPC` crash happens inside the promise executor, so
nothing settles and no confirmation opens (`crashed`). -/
def requestOperationRun (networks : List ThanosNetwork)
    (isAddressValid : String → Bool) (sessions : Sessions) (origin : String)
    (req : ThanosDAppOperationRequest) :
    List ArbEffect × ArbiterOutcome OperationPayload :=
  if !(opsParamsValid isAddressValid req) then
    ([], .failed (.error (.code .InvalidParams)))
  else
    match sessions origin with
    | none => ([.storageRead], .failed (.error (.code .NotGranted)))
    | some dApp =>
      if req.sourcePkh != dApp.pkh then
        ([.storageRead], .failed (.error (.code .NotFound)))
      else
        match getNetworkRPC networks dApp.network with
        | .error e => ([.storageRead], .crashed e)
        | .ok networkRpc =>
          ([.storageRead, .openConfirm],
           .awaiting ⟨origin, networkRpc, dApp.appMeta, req.sourcePkh,
                      dApp.publicKey, req.opParams⟩)

/-- `RequestSign` input (`ThanosDAppSignRequest`). -/
structure ThanosDAppSignRequest where
  sourcePkh : String
  payload : String
deriving DecidableEq, Repr

/-- The `0x`-stripping normalization of `requestSign` (dapp.ts:231-233):
`payload.startsWith("0x")` / `payload.substring(2)`, written over the
character list so it evaluates definitionally. -/
def normalizeSignPayload (p : String) : String :=
  if "0x".data.isPrefixOf p.data then String.mk (p.data.drop 2) else p

/-- `HEX_PATTERN` (dapp.ts:41): at least one character, all hex digits. -/
def isHexString (s : String) : Bool :=
  decide (0 < s.data.length) &&
    s.data.all
      (fun c => c.isDigit || ('a' ≤ c && c ≤ 'f') || ('A' ≤ c && c ≤ 'F'))

/-- The fixed textual magic of `TEZ_MSG_SIGN_PATTERN`: the hex encoding of
the string that marks a signed message. -/
def tezMsgMagic : String := "54657a6f73205369676e6564204d6573736167653a20"

/-- Lowercase hex digit class `[a-f0-9]` used by `TEZ_MSG_SIGN_PATTERN`. -/
def isLowerHexChar (c : Char) : Bool :=
  c.isDigit || ('a' ≤ c && c ≤ 'f')

/-- `TEZ_MSG_SIGN_PATTERN` (dapp.ts:42): `^0501`, then eight lowercase hex
characters, then the fixed magic, then any run of lowercase hex, anchored at
both ends (written over the character list so it evaluates
definitionally). -/
def tezMsgSignPattern (s : String) : Bool :=
  "0501".data.isPrefixOf s.data &&
    (let rest := s.data.drop 4
     decide (8 ≤ rest.length) && (rest.take 8).all isLowerHexChar &&
       tezMsgMagic.data.isPrefixOf (rest.drop 8) &&
       ((rest.drop 8).drop tezMsgMagic.data.length).all isLowerHexChar)

/-- Result of `localForger.parse`: the protocol only inspects `contents`
(its elements stay opaque). -/
structure ParsedOps where
  contents : List String
deriving DecidableEq, Repr

/-- A human preview of a sign request: either the trimmed Micheline text of
a decoded signed message, or a parsed operation structure. -/
inductive Preview where
  | text (s : String)
  | ops (p : ParsedOps)
deriving DecidableEq, Repr

/-- The best-effort preview chain of `requestSign` (dapp.ts:257-272).
`decodeValue` stands for `emitMicheline ∘ valueDecoder ∘ fromHexString`
applied to the payload without its first two characters, `parse` for
`localForger.parse`; both collaborators may fail and every failure is
swallowed into an absent preview. On the signed-message branch the emitted
text loses its first and last character (`slice(1, -1)`). A parsed structure
with no contents leaves the preview absent. -/
def buildPreview (decodeValue : String → Except JsError String)
    (parse : String → Except JsError ParsedOps) (payload : String) :
    Option Preview :=
  if tezMsgSignPattern payload then
    match decodeValue (String.mk (payload.data.drop 2)) with
    | .ok s => some (.text (String.mk (s.data.drop 1).dropLast))
    | .error _ => none
  else
    match parse payload with
    | .ok parsed =>
      if 0 < parsed.contents.length then some (.ops parsed) else none
    | .error _ => none

/-- The `sign` confirmation payload (dapp.ts:276-284). -/
structure SignPayload where
  origin : String
  networkRpc : String
  appMeta : ThanosDAppMetadata
  sourcePkh : String
  payload : String
  preview : Option Preview
deriving DecidableEq, Repr

/-- `requestSign` (dapp.ts:227-313) up to the human decision: normalize the
payload, validate address and hex, check session and account ownership, then
open the confirmation carrying the raw payload and the best-effort
preview. -/
def requestSignRun (networks : List ThanosNetwork)
    (isAddressValid : String → Bool) (sessions : Sessions)
    (decodeValue : String → Except JsError String)
    (parse : String → Except JsError ParsedOps) (origin : String)
    (req : ThanosDAppSignRequest) :
    List ArbEffect × ArbiterOutcome SignPayload :=
  let payload := normalizeSignPayload req.payload
  if !(isAddressValid req.sourcePkh && isHexString payload) then
    ([], .failed (.error (.code .InvalidParams)))
  else
    match sessions origin with
    | none => ([.storageRead], .failed (.error (.code .NotGranted)))
    | some dApp =>
      if req.sourcePkh != dApp.pkh then
        ([.storageRead], .failed (.error (.code .NotFound)))
      else
        match getNetworkRPC networks dApp.network with
        | .error e => ([.storageRead], .crashed e)
        | .ok networkRpc =>
          ([.storageRead, .openConfirm],
           .awaiting ⟨origin, networkRpc, dApp.appMeta, req.sourcePkh,
                      payload, buildPreview decodeValue parse payload⟩)

/-- `RequestBroadcast` input (`ThanosDAppBroadcastRequest`): `none` models a
missing `signedOpBytes`. -/
structure ThanosDAppBroadcastRequest where
  signedOpBytes : Option String
deriving DecidableEq, Repr

/-- Outcome of `requestBroadcast`: an operation hash or a thrown error. -/
inductive BroadcastOutcome where
  | done (opHash : String)
  | failed (e : JsError)
deriving DecidableEq, Repr

/-- `requestBroadcast` (dapp.ts:315-344): validate non-empty bytes
(`InvalidParams`), require a session (`NotGranted`), then inject with no
human approval step. The whole injection attempt sits in a `try` whose
`catch` relabels a `TezosOperationError` to the stable `TezosOperation` code
and turns every other failure (including a `getNetworkRPC` crash) into a
generic broadcast-failed error. `inject` stands for
`new RpcClient(rpc).injectOperation(bytes)`. -/
def requestBroadcastRun (networks : List ThanosNetwork)
    (sessions : Sessions) (inject : String → String → Except JsError String)
    (origin : String) (req : ThanosDAppBroadcastRequest) :
    List ArbEffect × BroadcastOutcome :=
  if !(match req.signedOpBytes with
       | some b => decide (0 < b.length)
       | none => false) then
    ([], .failed (.error (.code .InvalidParams)))
  else
    match sessions origin with
    | none => ([.storageRead], .failed (.error (.code .NotGranted)))
    | some dApp =>
      match getNetworkRPC networks dApp.network with
      | .error _ =>
        ([.storageRead], .failed (.error (.text "Failed to broadcast")))
      | .ok rpc =>
        match inject rpc (req.signedOpBytes.getD "") with
        | .ok opHash => ([.storageRead, .injectBytes], .done opHash)
        | .error (.tezosOperationError _) =>
          ([.storageRead, .injectBytes],
           .failed (.tezosOperationError (.code .TezosOperation)))
        | .error _ =>
          ([.storageRead, .injectBytes],
           .failed (.error (.text "Failed to broadcast")))

/-!
Confirmation orchestrator (`requestConfirm`, dapp.ts:390-480).

Channels ("ports") are identified by `Nat`. Inbound intercom messages are
reduced to the shapes the listener distinguishes: the fetch-payload
handshake, a decision ("confirmation") message of the flow's expected kind,
and anything else. The flow-specific `handleIntercomRequest` callbacks of
the permission / operation / sign arbiters share one guard structure —
match the expected confirmation type and the correlation id, then act on
`confirmed` — captured by `genericHandle`.
-/

/-- An inbound intercom message as the `requestConfirm` listener
distinguishes it. -/
inductive InMsg where
  | getPayload (mid : String)
  | confirmation (mid : String) (confirmed : Bool)
  | unrelated
deriving DecidableEq, Repr

/-- State of one pending confirmation's listener: the channel bound by the
fetch-payload handshake (`knownPort`, dapp.ts:423), if any. -/
structure ConfState where
  knownPort : Option Nat
deriving DecidableEq, Repr

/-- Observable effects of processing one inbound message: the handshake
reply carrying the stored payload, resolution or decline of the pending
request by its decision handler, and the teardown (`close()`) triggered by a
truthy handler result. -/
inductive ListenerEffect where
  | answerPayload
  | resolveConf
  | declineConf
  | closeConf
deriving DecidableEq, Repr

/-- The shared shape of the arbiters' `handleIntercomRequest` callbacks
(e.g. dapp.ts:184-222): a decision message of the expected kind with the
matching id resolves (when confirmed) or declines, and returns a truthy
response; everything else returns `undefined`. -/
def genericHandle (id : String) : InMsg → Option (List ListenerEffect)
  | .confirmation mid confirmed =>
    if mid == id then
      some (if confirmed then [.resolveConf] else [.declineConf])
    else none
  | _ => none

/-- Whether a message is the fetch-payload handshake for `id`
(dapp.ts:426-429). -/
def isMatchingGetPayload (id : String) : InMsg → Bool
  | .getPayload mid => mid == id
  | _ => false

/-- One step of the `requestConfirm` intercom listener (dapp.ts:424-446): a
matching fetch-payload message records the sending channel as `knownPort`
(unconditionally, so a later handshake rebinds the id) and is answered with
the payload; any other message from a channel different from `knownPort` is
dropped; otherwise the decision handler runs, and a truthy handler result
triggers `close()`. -/
def listenerStep (id : String) (st : ConfState) (port : Nat) (msg : InMsg) :
    ConfState × List ListenerEffect :=
  if isMatchingGetPayload id msg then
    ({ knownPort := some port }, [.answerPayload])
  else if st.knownPort ≠ some port then
    (st, [])
  else
    match genericHandle id msg with
    | some effs => (st, effs ++ [.closeConf])
    | none => (st, [])

/-- Run the listener over a sequence of (channel, message) events, tagging
every produced effect with the channel whose message produced it. -/
def runTrace (id : String) (st : ConfState) :
    List (Nat × InMsg) → ConfState × List (Nat × ListenerEffect)
  | [] => (st, [])
  | (port, msg) :: rest =>
    let step := listenerStep id st port msg
    let tail := runTrace id step.1 rest
    (tail.1, step.2.map (fun e => (port, e)) ++ tail.2)

/-- Teardown bookkeeping of one pending confirmation: the `closing` guard
flag and how many times each teardown action ran (dapp.ts:404-416). -/
structure TeardownState where
  closing : Bool
  timerCleared : Nat
  requestListenerDetached : Nat
  winRemovedListenerDetached : Nat
  windowClosed : Nat
deriving DecidableEq, Repr

/-- Teardown state before any trigger fires. -/
def initialTeardown : TeardownState := ⟨false, 0, 0, 0, 0⟩

/-- `close` (dapp.ts:405-416): a no-op once `closing` is set; otherwise set
the guard and perform each teardown action once (`stopTimeout`,
`stopRequestListening`, `stopWinRemovedListening`, `closeWindow`). -/
def close (st : TeardownState) : TeardownState :=
  if st.closing then st
  else
    { closing := true,
      timerCleared := st.timerCleared + 1,
      requestListenerDetached := st.requestListenerDetached + 1,
      winRemovedListenerDetached := st.winRemovedListenerDetached + 1,
      windowClosed := st.windowClosed + 1 }

/-- The four triggers that can end a pending confirmation. -/
inductive CloseTrigger where
  | explicitDecline
  | handlerCompletion
  | surfaceClosed
  | timeout
deriving DecidableEq, Repr

/-- Every trigger converges on `close`: an explicit decline and the
120-second timeout run `declineAndClose` (dapp.ts:418-421, 478), the
window-removed listener runs `declineAndClose` (dapp.ts:468-472), and a
truthy decision-handler result runs `close` directly (dapp.ts:440-443). -/
def fireTrigger (st : TeardownState) (_t : CloseTrigger) : TeardownState :=
  close st

/-!
Decision handlers after a confirmed approval, for the error-propagation
behaviour of the operation and sign flows (dapp.ts:184-222, 288-310).

`HandlerRun.actions` lists the settlements applied to the original caller's
pending promise; `closed` records whether the listener wrapper invoked
`close()` because the handler returned a truthy response. A `.error` result
of the whole handler means the exception escaped the intercom callback:
no settlement reaches the caller's promise and `close()` is not invoked.
-/

/-- Result of `vault.sendOperations`: the hash and per-content results. -/
structure OpResult where
  hash : String
  results : List String
deriving DecidableEq, Repr

/-- A settlement applied to the original caller's pending promise. -/
inductive PromiseAction where
  | resolveOpHash (h : String)
  | resolveSignature (s : String)
  | rejectErr (e : JsError)
deriving DecidableEq, Repr

/-- A completed run of a decision handler: the promise settlements it issued
and whether the wrapper then tore the confirmation down. -/
structure HandlerRun where
  actions : List PromiseAction
  closed : Bool
deriving DecidableEq, Repr

/-- The decision branch of `requestOperation`'s handler (dapp.ts:189-219)
for a matching decision on the bound channel. On approval, the vault call's
outcome (`sendOperations`) decides everything: success resolves with the
hash regardless of the best-effort pending-ledger append (`appendPnd`,
whose failure is swallowed); a `TezosOperationError` is rejected to the
caller with its message replaced by the stable `TezosOperation` code; any
other error is rethrown, escaping the intercom callback. On refusal,
`decline` rejects with `NotGranted`. In every non-escaping case the handler
returns a truthy response, so the wrapper closes the confirmation. -/
def opsConfirmHandler (confirmed : Bool)
    (sendOperations : Except JsError OpResult)
    (appendPnd : Except JsError Unit) : Except JsError HandlerRun :=
  if confirmed then
    match sendOperations with
    | .ok op =>
      match appendPnd with
      | _ => .ok ⟨[.resolveOpHash op.hash], true⟩
    | .error (.tezosOperationError _) =>
      .ok ⟨[.rejectErr (.tezosOperationError (.code .TezosOperation))], true⟩
    | .error e => .error e
  else
    .ok ⟨[.rejectErr (.error (.code .NotGranted))], true⟩

/-- The decision branch of `requestSign`'s handler (dapp.ts:293-303):
`vault.sign` is awaited with no try/catch, so any signing failure escapes
the intercom callback; success resolves with the signature (`prefixSig`). -/
def signConfirmHandler (confirmed : Bool)
    (sign : Except JsError String) : Except JsError HandlerRun :=
  if confirmed then
    match sign with
    | .ok sig => .ok ⟨[.resolveSignature sig], true⟩
    | .error e => .error e
  else
    .ok ⟨[.rejectErr (.error (.code .NotGranted))], true⟩

/-!
Concrete fixtures used by the witness theorems.
-/

/-- A one-entry known-network list. -/
def sampleNetworks : List ThanosNetwork :=
  [⟨"mainnet", "https://mainnet.example", false⟩]

/-- App metadata fixture. -/
def sampleMeta : ThanosDAppMetadata := ⟨"Sample DApp"⟩

/-- A persisted session for `sampleOrigin` on the known network. -/
def sampleSession : ThanosDAppSession :=
  ⟨.id "mainnet", sampleMeta, "tz1SampleAccount", "edpkSampleKey"⟩

/-- The origin holding `sampleSession`. -/
def sampleOrigin : String := "https://dapp.example"

/-- A sessions document with exactly one session. -/
def sampleSessions : Sessions :=
  fun o => if o = sampleOrigin then some sampleSession else none

/-- A session whose network id is no longer in the known-network list. -/
def staleSession : ThanosDAppSession :=
  ⟨.id "removednet", sampleMeta, "tz1SampleAccount", "edpkSampleKey"⟩

/-- A sessions document holding only `staleSession`. -/
def staleSessions : Sessions :=
  fun o => if o = sampleOrigin then some staleSession else none

/-- An address validator accepting everything (fixture). -/
def anyAddressValid : String → Bool := fun _ => true

/-- A Micheline decoder that always fails (fixture). -/
def failingDecode : String → Except JsError String :=
  fun _ => .error .typeError

/-- A forging parser that always fails (fixture). -/
def failingParse : String → Except JsError ParsedOps :=
  fun _ => .error .typeError

/-- A sessions document with no sessions (fixture). -/
def noSessions : Sessions := fun _ => none

/-- An injector that succeeds with a fixed hash (fixture). -/
def injectOk : String → String → Except JsError String :=
  fun _ _ => .ok "ooSampleHash"

/-- An injector failing with a `TezosOperationError` (fixture). -/
def injectTezErr : String → String → Except JsError String :=
  fun _ _ => .error (.tezosOperationError (.text "proto.counter_in_the_past"))

/-- An injector failing with a non-Tezos error (fixture). -/
def injectOtherErr : String → String → Except JsError String :=
  fun _ _ => .error (.error (.text "connection refused"))

/-!
Helper lemmas shared by the claim theorems.
-/

/-- A network that passed `isAllowedNetwork` always has an RPC:
`getNetworkRPC` cannot crash on it. -/
theorem isAllowedNetwork_getNetworkRPC_ok (networks : List ThanosNetwork)
    (net : ThanosDAppNetwork) (h : isAllowedNetwork networks net = true) :
    ∃ r, getNetworkRPC networks net = .ok r := by
  cases net with
  | custom rpc => exact ⟨rpc, rfl⟩
  | id s =>
    simp only [isAllowedNetwork, List.any_eq_true] at h
    obtain ⟨n, hmem, hp⟩ := h
    have hsome : (networks.find? (fun m => m.id == s)).isSome = true := by
      rw [List.find?_isSome]
      refine ⟨n, hmem, ?_⟩
      simp only [Bool.and_eq_true] at hp
      exact hp.2
    match hm : networks.find? (fun m => m.id == s) with
    | some m => exact ⟨m.rpcBaseURL, by simp [getNetworkRPC, hm]⟩
    | none => rw [hm] at hsome; simp at hsome

/-- Networks equal in the sense of `isNetworkEquals` resolve to the same
`getNetworkRPC` result. -/
theorem isNetworkEquals_getNetworkRPC (networks : List ThanosNetwork)
    (a b : ThanosDAppNetwork) (h : isNetworkEquals a b = true) :
    getNetworkRPC networks a = getNetworkRPC networks b := by
  cases a <;> cases b <;> simp_all [isNetworkEquals, getNetworkRPC]

/-- C4: for every valid permission request where a session already exists
for the origin, the requested network equals the session's network under
`isNetworkEquals` (string ids by value, inline descriptors by RPC endpoint,
never across the two shapes), the app name matches and `force` is unset,
`requestPermission` returns the existing grant's rpc/pkh/publicKey without
opening any confirmation (the only effect is the session-store read). -/
theorem requestPermission_fast_path (networks : List ThanosNetwork)
    (sessions : Sessions) (origin : String)
    (req : ThanosDAppPermissionRequest) (dApp : ThanosDAppSession)
    (r : String)
    (hsession : sessions origin = some dApp)
    (hallowed : isAllowedNetwork networks req.network = true)
    (hnet : isNetworkEquals req.network dApp.network = true)
    (hname : req.appMeta.name = dApp.appMeta.name)
    (hforce : req.force = false)
    (hrpc : getNetworkRPC networks dApp.network = .ok r) :
    requestPermissionRun networks sessions origin req =
      ([.storageRead], .granted ⟨r, dApp.pkh, dApp.publicKey⟩) := by
  have hreq : getNetworkRPC networks req.network = .ok r :=
    (isNetworkEquals_getNetworkRPC networks _ _ hnet).trans hrpc
  simp [requestPermissionRun, hallowed, hreq, hsession, hnet, hname, hforce]

/-- Witness for C4 at concrete inputs. -/
theorem requestPermission_fast_path_witness :
    requestPermissionRun sampleNetworks sampleSessions sampleOrigin
        ⟨.id "mainnet", sampleMeta, false⟩ =
      ([.storageRead],
       .granted ⟨"https://mainnet.example", "tz1SampleAccount",
                 "edpkSampleKey"⟩) :=
  requestPermission_fast_path sampleNetworks sampleSessions sampleOrigin
    ⟨.id "mainnet", sampleMeta, false⟩ sampleSession "https://mainnet.example"
    (by rfl) (by rfl) (by rfl) rfl rfl (by rfl)

/-- C7: a successful permission approval persists the session via `setDApp`
and resolves with the grant; an immediate `getCurrentPermission` on the
updated sessions document returns exactly that granted rpc/pkh/publicKey. -/
theorem grant_then_getCurrentPermission (networks : List ThanosNetwork)
    (sessions : Sessions) (origin : String)
    (req : ThanosDAppPermissionRequest) (accPkh accPk r : String)
    (hrpc : getNetworkRPC networks req.network = .ok r) :
    (permApproveStep networks sessions origin req accPkh accPk).2 =
        .ok ⟨r, accPkh, accPk⟩ ∧
      getCurrentPermission networks
          (permApproveStep networks sessions origin req accPkh accPk).1
          origin =
        .ok (some ⟨r, accPkh, accPk⟩) := by
  constructor
  · simp [permApproveStep, hrpc]
  · simp [permApproveStep, hrpc, getCurrentPermission, setDApp, Except.map]

/-- Witness for C7 at concrete inputs. -/
theorem grant_then_getCurrentPermission_witness :
    (permApproveStep sampleNetworks noSessions sampleOrigin
        ⟨.id "mainnet", sampleMeta, false⟩ "tz1Fresh" "edpkFresh").2 =
        .ok ⟨"https://mainnet.example", "tz1Fresh", "edpkFresh"⟩ ∧
      getCurrentPermission sampleNetworks
          (permApproveStep sampleNetworks noSessions sampleOrigin
            ⟨.id "mainnet", sampleMeta, false⟩ "tz1Fresh" "edpkFresh").1
          sampleOrigin =
        .ok (some ⟨"https://mainnet.example", "tz1Fresh", "edpkFresh"⟩) :=
  grant_then_getCurrentPermission sampleNetworks noSessions sampleOrigin
    ⟨.id "mainnet", sampleMeta, false⟩ "tz1Fresh" "edpkFresh"
    "https://mainnet.example" (by rfl)

/-- C10: `getNetworkRPC` is partial on string ids — an id found in the
known-network list yields its `rpcBaseURL`, an absent id crashes with an
untyped runtime error (the non-null assertion dereference); consequently
`getCurrentPermission` and the operation arbiter crash with that non-protocol
error on a session persisted under a since-removed network id. -/
theorem getNetworkRPC_stale_id_crash (networks : List ThanosNetwork) (s : String)
    (n : ThanosNetwork) (sessions : Sessions) (origin : String)
    (d : ThanosDAppSession) :
    (networks.find? (fun m => m.id == s) = some n →
        getNetworkRPC networks (.id s) = .ok n.rpcBaseURL) ∧
      (networks.find? (fun m => m.id == s) = none →
        getNetworkRPC networks (.id s) = .error .typeError) ∧
      (sessions origin = some d → d.network = .id s →
        networks.find? (fun m => m.id == s) = none →
        getCurrentPermission networks sessions origin = .error .typeError ∧
          requestOperationRun networks anyAddressValid sessions origin
              ⟨d.pkh, [⟨some "transaction"⟩]⟩ =
            ([.storageRead], .crashed .typeError)) := by
  refine ⟨?_, ?_, ?_⟩
  · intro hfind
    simp [getNetworkRPC, hfind]
  · intro hfind
    simp [getNetworkRPC, hfind]
  · intro hsess hnet hfind
    constructor
    · simp [getCurrentPermission, hsess, hnet, getNetworkRPC, hfind,
            Except.map]
    · simp [requestOperationRun, opsParamsValid, anyAddressValid, hsess,
            hnet, getNetworkRPC, hfind]

/-- Witness for C10: the sample list resolves its own id, crashes on a
removed id, and a stale session crashes `getCurrentPermission` and the
operation arbiter. -/
theorem getNetworkRPC_stale_id_crash_witness :
    getNetworkRPC sampleNetworks (.id "mainnet") =
        .ok "https://mainnet.example" ∧
      getNetworkRPC sampleNetworks (.id "removednet") = .error .typeError ∧
      getCurrentPermission sampleNetworks staleSessions sampleOrigin =
        .error .typeError ∧
      requestOperationRun sampleNetworks anyAddressValid staleSessions
          sampleOrigin ⟨"tz1SampleAccount", [⟨some "transaction"⟩]⟩ =
        ([.storageRead], .crashed .typeError) := by
  have h1 := (getNetworkRPC_stale_id_crash sampleNetworks "mainnet"
    ⟨"mainnet", "https://mainnet.example", false⟩ sampleSessions sampleOrigin
    sampleSession).1 (by rfl)
  have h2 := (getNetworkRPC_stale_id_crash sampleNetworks "removednet"
    ⟨"mainnet", "https://mainnet.example", false⟩ staleSessions sampleOrigin
    staleSession).2.1 (by rfl)
  have h3 := (getNetworkRPC_stale_id_crash sampleNetworks "removednet"
    ⟨"mainnet", "https://mainnet.example", false⟩ staleSessions sampleOrigin
    staleSession).2.2 (by rfl) rfl (by rfl)
  exact ⟨h1, h2, h3.1, h3.2⟩

/-- C5: for every syntactically valid operation or sign request, a missing
session for the origin fails with `NotGranted` and a session whose `pkh`
differs from `sourcePkh` fails with `NotFound`; in both cases the only
effect is the session-store read — no confirmation is opened, and since
signing happens only inside a confirmation's decision handler, no signing
occurs. -/
theorem session_and_account_checks (networks : List ThanosNetwork)
    (isAddressValid : String → Bool) (sessions : Sessions)
    (decodeValue : String → Except JsError String)
    (parse : String → Except JsError ParsedOps) (origin : String)
    (oreq : ThanosDAppOperationRequest) (sreq : ThanosDAppSignRequest)
    (d : ThanosDAppSession) :
    (opsParamsValid isAddressValid oreq = true → sessions origin = none →
        requestOperationRun networks isAddressValid sessions origin oreq =
          ([.storageRead], .failed (.error (.code .NotGranted)))) ∧
      (opsParamsValid isAddressValid oreq = true →
        sessions origin = some d → oreq.sourcePkh ≠ d.pkh →
        requestOperationRun networks isAddressValid sessions origin oreq =
          ([.storageRead], .failed (.error (.code .NotFound)))) ∧
      (isAddressValid sreq.sourcePkh = true →
        isHexString (normalizeSignPayload sreq.payload) = true →
        sessions origin = none →
        requestSignRun networks isAddressValid sessions decodeValue parse
            origin sreq =
          ([.storageRead], .failed (.error (.code .NotGranted)))) ∧
      (isAddressValid sreq.sourcePkh = true →
        isHexString (normalizeSignPayload sreq.payload) = true →
        sessions origin = some d → sreq.sourcePkh ≠ d.pkh →
        requestSignRun networks isAddressValid sessions decodeValue parse
            origin sreq =
          ([.storageRead], .failed (.error (.code .NotFound)))) := by
  refine ⟨?_, ?_, ?_, ?_⟩
  · intro hvalid hsess
    simp [requestOperationRun, hvalid, hsess]
  · intro hvalid hsess hne
    simp [requestOperationRun, hvalid, hsess, bne_iff_ne, hne]
  · intro haddr hhex hsess
    simp [requestSignRun, haddr, hhex, hsess]
  · intro haddr hhex hsess hne
    simp [requestSignRun, haddr, hhex, hsess, bne_iff_ne, hne]

/-- Witness for C5: each of the four checks at concrete inputs. -/
theorem session_and_account_checks_witness :
    requestOperationRun sampleNetworks anyAddressValid noSessions
        sampleOrigin ⟨"tz1SampleAccount", [⟨some "transaction"⟩]⟩ =
      ([.storageRead], .failed (.error (.code .NotGranted))) ∧
      requestOperationRun sampleNetworks anyAddressValid sampleSessions
          sampleOrigin ⟨"tz1OtherAccount", [⟨some "transaction"⟩]⟩ =
        ([.storageRead], .failed (.error (.code .NotFound))) ∧
      requestSignRun sampleNetworks anyAddressValid noSessions failingDecode
          failingParse sampleOrigin ⟨"tz1SampleAccount", "abcdef"⟩ =
        ([.storageRead], .failed (.error (.code .NotGranted))) ∧
      requestSignRun sampleNetworks anyAddressValid sampleSessions
          failingDecode failingParse sampleOrigin
          ⟨"tz1OtherAccount", "abcdef"⟩ =
        ([.storageRead], .failed (.error (.code .NotFound))) := by
  refine ⟨?_, ?_, ?_, ?_⟩
  · exact (session_and_account_checks sampleNetworks anyAddressValid
      noSessions failingDecode failingParse sampleOrigin
      ⟨"tz1SampleAccount", [⟨some "transaction"⟩]⟩
      ⟨"tz1SampleAccount", "abcdef"⟩ sampleSession).1 (by rfl) rfl
  · exact (session_and_account_checks sampleNetworks anyAddressValid
      sampleSessions failingDecode failingParse sampleOrigin
      ⟨"tz1OtherAccount", [⟨some "transaction"⟩]⟩
      ⟨"tz1OtherAccount", "abcdef"⟩ sampleSession).2.1 (by rfl) (by rfl)
      (by decide)
  · exact (session_and_account_checks sampleNetworks anyAddressValid
      noSessions failingDecode failingParse sampleOrigin
      ⟨"tz1SampleAccount", [⟨some "transaction"⟩]⟩
      ⟨"tz1SampleAccount", "abcdef"⟩ sampleSession).2.2.1 rfl (by rfl) rfl
  · exact (session_and_account_checks sampleNetworks anyAddressValid
      sampleSessions failingDecode failingParse sampleOrigin
      ⟨"tz1OtherAccount", [⟨some "transaction"⟩]⟩
      ⟨"tz1OtherAccount", "abcdef"⟩ sampleSession).2.2.2 rfl (by rfl)
      (by rfl) (by decide)

/-- C6: an invalid `requestOperation` input — invalid source address, empty
`opParams`, or an element lacking a string `kind` — fails with
`InvalidParams` with an empty effect list: before any storage read, network
access, or confirmation. -/
theorem requestOperation_invalid_params (networks : List ThanosNetwork)
    (isAddressValid : String → Bool) (sessions : Sessions) (origin : String)
    (req : ThanosDAppOperationRequest)
    (h : isAddressValid req.sourcePkh = false ∨ req.opParams = [] ∨
      ∃ op ∈ req.opParams, op.kind = none) :
    requestOperationRun networks isAddressValid sessions origin req =
      ([], .failed (.error (.code .InvalidParams))) := by
  have hv : opsParamsValid isAddressValid req = false := by
    rcases h with h | h | ⟨op, hmem, hk⟩
    · simp [opsParamsValid, h]
    · simp [opsParamsValid, h]
    · have hall : req.opParams.all (fun op => op.kind.isSome) = false := by
        cases hb : req.opParams.all (fun op => op.kind.isSome) with
        | false => rfl
        | true =>
          have := List.all_eq_true.mp hb op hmem
          rw [hk] at this
          simp at this
      simp [opsParamsValid, hall]
  simp [requestOperationRun, hv]

/-- Witness for C6: `opParams = []` fails with `InvalidParams` and no
effects. -/
theorem requestOperation_invalid_params_witness :
    requestOperationRun sampleNetworks anyAddressValid sampleSessions
        sampleOrigin ⟨"tz1SampleAccount", []⟩ =
      ([], .failed (.error (.code .InvalidParams))) :=
  requestOperation_invalid_params sampleNetworks anyAddressValid
    sampleSessions sampleOrigin ⟨"tz1SampleAccount", []⟩ (Or.inr (Or.inl rfl))

/-- C8: for every valid sign request the confirmation opens with the raw
(normalized) payload and the best-effort preview, for every behaviour of the
two decoding collaborators — so no decode failure can fail the sign flow —
and the preview is the ordered fallback: signed-message pattern first (the
decoded value with its outermost characters trimmed), otherwise a full parse
exposed only when it has at least one content, and absent on any decode
failure. -/
theorem requestSign_preview_fallback (networks : List ThanosNetwork)
    (isAddressValid : String → Bool) (sessions : Sessions)
    (decodeValue : String → Except JsError String)
    (parse : String → Except JsError ParsedOps) (origin : String)
    (sreq : ThanosDAppSignRequest) (d : ThanosDAppSession) (r : String)
    (haddr : isAddressValid sreq.sourcePkh = true)
    (hhex : isHexString (normalizeSignPayload sreq.payload) = true)
    (hsess : sessions origin = some d)
    (hpkh : sreq.sourcePkh = d.pkh)
    (hrpc : getNetworkRPC networks d.network = .ok r) :
    requestSignRun networks isAddressValid sessions decodeValue parse origin
        sreq =
      ([.storageRead, .openConfirm],
       .awaiting ⟨origin, r, d.appMeta, sreq.sourcePkh,
                  normalizeSignPayload sreq.payload,
                  buildPreview decodeValue parse
                    (normalizeSignPayload sreq.payload)⟩) ∧
      (∀ p e, tezMsgSignPattern p = true →
        decodeValue (String.mk (p.data.drop 2)) = .error e →
        buildPreview decodeValue parse p = none) ∧
      (∀ p e, tezMsgSignPattern p = false → parse p = .error e →
        buildPreview decodeValue parse p = none) ∧
      (∀ p s, tezMsgSignPattern p = true →
        decodeValue (String.mk (p.data.drop 2)) = .ok s →
        buildPreview decodeValue parse p =
          some (.text (String.mk (s.data.drop 1).dropLast))) ∧
      (∀ p ps, tezMsgSignPattern p = false → parse p = .ok ps →
        buildPreview decodeValue parse p =
          if 0 < ps.contents.length then some (.ops ps) else none) := by
  have haddr' : isAddressValid d.pkh = true := hpkh ▸ haddr
  refine ⟨?_, ?_, ?_, ?_, ?_⟩
  · simp [requestSignRun, haddr, haddr', hhex, hsess, hpkh, hrpc]
  · intro p e hpat hdec
    simp [buildPreview, hpat, hdec]
  · intro p e hpat hparse
    simp [buildPreview, hpat, hparse]
  · intro p s hpat hdec
    simp [buildPreview, hpat, hdec]
  · intro p ps hpat hparse
    simp [buildPreview, hpat, hparse]

/-- Witness for C8: with decoders that always fail, the sign flow still
opens the confirmation carrying the raw payload, with the preview absent. -/
theorem requestSign_preview_fallback_witness :
    requestSignRun sampleNetworks anyAddressValid sampleSessions
        failingDecode failingParse sampleOrigin
        ⟨"tz1SampleAccount", "abcdef"⟩ =
      ([.storageRead, .openConfirm],
       .awaiting ⟨sampleOrigin, "https://mainnet.example", sampleMeta,
                  "tz1SampleAccount", "abcdef", none⟩) ∧
      buildPreview failingDecode failingParse "abcdef" = none := by
  have h := requestSign_preview_fallback sampleNetworks anyAddressValid
    sampleSessions failingDecode failingParse sampleOrigin
    ⟨"tz1SampleAccount", "abcdef"⟩ sampleSession "https://mainnet.example"
    rfl (by rfl) (by rfl) (by rfl) (by rfl)
  exact ⟨h.1, h.2.2.1 "abcdef" .typeError (by rfl) rfl⟩

/-- C9: `requestBroadcast` fails with `InvalidParams` on empty or missing
`signedOpBytes` before any effect, fails with `NotGranted` when no session
exists, and otherwise injects the bytes with no human approval step (no
confirmation effect ever occurs); an injection `TezosOperationError` is
surfaced with its message replaced by the stable `TezosOperation` code and
any other injection failure becomes the generic broadcast-failed error. -/
theorem requestBroadcast_behaviour (networks : List ThanosNetwork)
    (sessions : Sessions) (inject : String → String → Except JsError String)
    (origin : String) (req : ThanosDAppBroadcastRequest)
    (d : ThanosDAppSession) (r : String) :
    (req.signedOpBytes = none ∨ req.signedOpBytes = some "" →
        requestBroadcastRun networks sessions inject origin req =
          ([], .failed (.error (.code .InvalidParams)))) ∧
      (∀ b, req.signedOpBytes = some b → 0 < b.length →
        sessions origin = none →
        requestBroadcastRun networks sessions inject origin req =
          ([.storageRead], .failed (.error (.code .NotGranted)))) ∧
      (∀ b, req.signedOpBytes = some b → 0 < b.length →
        sessions origin = some d →
        getNetworkRPC networks d.network = .ok r →
        (∀ h, inject r b = .ok h →
            requestBroadcastRun networks sessions inject origin req =
              ([.storageRead, .injectBytes], .done h)) ∧
          (∀ m, inject r b = .error (.tezosOperationError m) →
            requestBroadcastRun networks sessions inject origin req =
              ([.storageRead, .injectBytes],
               .failed (.tezosOperationError (.code .TezosOperation)))) ∧
          (∀ e, e.isTezosOpError = false → inject r b = .error e →
            requestBroadcastRun networks sessions inject origin req =
              ([.storageRead, .injectBytes],
               .failed (.error (.text "Failed to broadcast"))))) := by
  refine ⟨?_, ?_, ?_⟩
  · rintro (h | h) <;> simp [requestBroadcastRun, h]
  · intro b hb hlen hsess
    simp [requestBroadcastRun, hb, hlen, hsess]
  · intro b hb hlen hsess hrpc
    refine ⟨?_, ?_, ?_⟩
    · intro h hinj
      simp [requestBroadcastRun, hb, hlen, hsess, hrpc, hinj]
    · intro m hinj
      simp [requestBroadcastRun, hb, hlen, hsess, hrpc, hinj]
    · intro e he hinj
      cases e with
      | tezosOperationError m => simp [JsError.isTezosOpError] at he
      | error m =>
        simp [requestBroadcastRun, hb, hlen, hsess, hrpc, hinj]
      | typeError =>
        simp [requestBroadcastRun, hb, hlen, hsess, hrpc, hinj]

/-- Witness for C9: each branch at concrete inputs. -/
theorem requestBroadcast_behaviour_witness :
    requestBroadcastRun sampleNetworks sampleSessions injectOk sampleOrigin
        ⟨none⟩ =
      ([], .failed (.error (.code .InvalidParams))) ∧
      requestBroadcastRun sampleNetworks noSessions injectOk sampleOrigin
          ⟨some "0aff"⟩ =
        ([.storageRead], .failed (.error (.code .NotGranted))) ∧
      requestBroadcastRun sampleNetworks sampleSessions injectOk sampleOrigin
          ⟨some "0aff"⟩ =
        ([.storageRead, .injectBytes], .done "ooSampleHash") ∧
      requestBroadcastRun sampleNetworks sampleSessions injectTezErr
          sampleOrigin ⟨some "0aff"⟩ =
        ([.storageRead, .injectBytes],
         .failed (.tezosOperationError (.code .TezosOperation))) ∧
      requestBroadcastRun sampleNetworks sampleSessions injectOtherErr
          sampleOrigin ⟨some "0aff"⟩ =
        ([.storageRead, .injectBytes],
         .failed (.error (.text "Failed to broadcast"))) := by
  refine ⟨?_, ?_, ?_, ?_, ?_⟩
  · exact (requestBroadcast_behaviour sampleNetworks sampleSessions injectOk
      sampleOrigin ⟨none⟩ sampleSession "https://mainnet.example").1
      (Or.inl rfl)
  · exact (requestBroadcast_behaviour sampleNetworks noSessions injectOk
      sampleOrigin ⟨some "0aff"⟩ sampleSession "https://mainnet.example").2.1
      "0aff" rfl (by decide) rfl
  · exact ((requestBroadcast_behaviour sampleNetworks sampleSessions
      injectOk sampleOrigin ⟨some "0aff"⟩ sampleSession
      "https://mainnet.example").2.2 "0aff" rfl (by decide) (by rfl)
      (by rfl)).1 "ooSampleHash" rfl
  · exact ((requestBroadcast_behaviour sampleNetworks sampleSessions
      injectTezErr sampleOrigin ⟨some "0aff"⟩ sampleSession
      "https://mainnet.example").2.2 "0aff" rfl (by decide) (by rfl)
      (by rfl)).2.1 (.text "proto.counter_in_the_past") rfl
  · exact ((requestBroadcast_behaviour sampleNetworks sampleSessions
      injectOtherErr sampleOrigin ⟨some "0aff"⟩ sampleSession
      "https://mainnet.example").2.2 "0aff" rfl (by decide) (by rfl)
      (by rfl)).2.2 (.error (.text "connection refused")) rfl rfl

/-- Once the `closing` guard is set, any further sequence of triggers leaves
the teardown state unchanged. -/
theorem foldl_fireTrigger_closed (ts : List CloseTrigger)
    (st : TeardownState) (h : st.closing = true) :
    ts.foldl fireTrigger st = st := by
  induction ts with
  | nil => rfl
  | cons t rest ih =>
    rw [List.foldl_cons]
    have hstep : fireTrigger st t = st := by simp [fireTrigger, close, h]
    rw [hstep]
    exact ih

/-- C2: for every pending confirmation, any non-empty sequence of teardown
triggers — explicit decline, handler completion, surface closed by any
means, the 120-second timeout, in any order and multiplicity — leaves the
timer cleared, the message listener detached, the window-close listener
detached, and the approval surface closed exactly once, with the `closing`
guard set. -/
theorem teardown_exactly_once (ts : List CloseTrigger) (h : ts ≠ []) :
    ts.foldl fireTrigger initialTeardown = ⟨true, 1, 1, 1, 1⟩ := by
  match ts with
  | [] => exact absurd rfl h
  | t :: rest =>
    rw [List.foldl_cons]
    have hstep : fireTrigger initialTeardown t = ⟨true, 1, 1, 1, 1⟩ := rfl
    rw [hstep]
    exact foldl_fireTrigger_closed rest ⟨true, 1, 1, 1, 1⟩ rfl

/-- Witness for C2: an approve-then-timeout race (handler completion
followed by a late timeout and a late window-close) tears down exactly
once. -/
theorem teardown_exactly_once_witness :
    [CloseTrigger.handlerCompletion, CloseTrigger.timeout,
        CloseTrigger.surfaceClosed].foldl fireTrigger initialTeardown =
      ⟨true, 1, 1, 1, 1⟩ :=
  teardown_exactly_once
    [CloseTrigger.handlerCompletion, CloseTrigger.timeout,
     CloseTrigger.surfaceClosed] (by decide)

/-- C3 counterexample: a submission failure that is not a
`TezosOperationError` is rethrown by `requestOperation`'s decision handler
(dapp.ts:210), and any signing failure is thrown by `requestSign`'s handler
(which has no try/catch, dapp.ts:294-296): the `Except.error` results mean
the exception escapes the intercom callback, so no settlement reaches the
original caller's pending promise and `close()` is never invoked — the
claim that such failures are propagated to the caller's promise after
teardown is false at these inputs. -/
theorem ops_sign_error_escape_counterexample :
    opsConfirmHandler true (.error (.error (.text "node connection refused")))
        (.ok ()) =
      .error (.error (.text "node connection refused")) ∧
      signConfirmHandler true
          (.error (.error (.text "ledger transport failure"))) =
        .error (.error (.text "ledger transport failure")) :=
  ⟨rfl, rfl⟩

/-- C3 (amended): on an approved operation whose submission fails with a
`TezosOperationError`, the caller's pending promise is rejected with that
error carrying the stable `TezosOperation` code in place of its message and
the confirmation is torn down; a successful submission resolves with the
operation hash regardless of the best-effort ledger append; any other
submission failure, and any signing failure in `requestSign`, escapes the
decision handler without settling the caller's promise and without tearing
the surface down. -/
theorem ops_sign_error_propagation (op : OpResult) (m : ErrMsg)
    (e : JsError) (appendPnd : Except JsError Unit) (sig : String) :
    opsConfirmHandler true (.ok op) appendPnd =
        .ok ⟨[.resolveOpHash op.hash], true⟩ ∧
      opsConfirmHandler true (.error (.tezosOperationError m)) appendPnd =
        .ok ⟨[.rejectErr (.tezosOperationError (.code .TezosOperation))],
             true⟩ ∧
      (e.isTezosOpError = false →
        opsConfirmHandler true (.error e) appendPnd = .error e) ∧
      signConfirmHandler true (.ok sig) =
        .ok ⟨[.resolveSignature sig], true⟩ ∧
      signConfirmHandler true (.error e) = .error e := by
  refine ⟨rfl, rfl, ?_, rfl, rfl⟩
  intro he
  cases e with
  | tezosOperationError m' => simp [JsError.isTezosOpError] at he
  | error m' => rfl
  | typeError => rfl

/-- Witness for C3 (amended) at concrete inputs, including a failed ledger
append that does not disturb the successful resolution. -/
theorem ops_sign_error_propagation_witness :
    opsConfirmHandler true (.ok ⟨"ooHash1", ["applied"]⟩)
        (.error (.error (.text "ledger append failed"))) =
      .ok ⟨[.resolveOpHash "ooHash1"], true⟩ ∧
      opsConfirmHandler true
          (.error (.tezosOperationError (.text "proto.balance_too_low")))
          (.ok ()) =
        .ok ⟨[.rejectErr (.tezosOperationError (.code .TezosOperation))],
             true⟩ ∧
      opsConfirmHandler true (.error (.error (.text "socket hang up")))
          (.ok ()) =
        .error (.error (.text "socket hang up")) ∧
      signConfirmHandler true (.ok "edsigSample") =
        .ok ⟨[.resolveSignature "edsigSample"], true⟩ ∧
      signConfirmHandler true (.error .typeError) = .error .typeError := by
  have h1 := ops_sign_error_propagation ⟨"ooHash1", ["applied"]⟩
    (.text "proto.balance_too_low") (.error (.text "socket hang up"))
    (.error (.error (.text "ledger append failed"))) "edsigSample"
  have h2 := ops_sign_error_propagation ⟨"ooHash1", ["applied"]⟩
    (.text "proto.balance_too_low") (.error (.text "socket hang up"))
    (.ok ()) "edsigSample"
  have h3 := ops_sign_error_propagation ⟨"ooHash1", ["applied"]⟩
    (.text "proto.balance_too_low") JsError.typeError (.ok ()) "edsigSample"
  exact ⟨h1.1, h2.2.1, h2.2.2.1 rfl, h2.2.2.2.1, h3.2.2.2.2⟩

/-- Trace invariant behind C1: a channel `q` that never sends the matching
fetch-payload handshake is never recorded as `knownPort`, and none of its
messages produces any effect — no payload answer, no resolution, no decline,
no teardown. -/
theorem runTrace_never_handshaker (id : String) (q : Nat) :
    ∀ (tr : List (Nat × InMsg)) (st : ConfState),
      st.knownPort ≠ some q →
      tr.all (fun pm => pm.1 != q || !(isMatchingGetPayload id pm.2)) =
          true →
      ((runTrace id st tr).2.all (fun pe => pe.1 != q)) = true ∧
        (runTrace id st tr).1.knownPort ≠ some q := by
  intro tr
  induction tr with
  | nil =>
    intro st h1 _
    exact ⟨rfl, h1⟩
  | cons pm rest ih =>
    intro st h1 h2
    obtain ⟨p, m⟩ := pm
    rw [List.all_cons] at h2
    simp only [Bool.and_eq_true] at h2
    obtain ⟨hpm, hrest⟩ := h2
    by_cases hmg : isMatchingGetPayload id m = true
    · have hpq : (p != q) = true := by
        simp only [hmg, Bool.not_true, Bool.or_false] at hpm
        exact hpm
      have hpq' : p ≠ q := by simpa using hpq
      have hres := ih ⟨some p⟩ (by simp [hpq']) hrest
      constructor
      · simp [runTrace, listenerStep, hmg, List.all_append, hpq, hres.1]
      · simp [runTrace, listenerStep, hmg, hres.2]
    · have hmg' : isMatchingGetPayload id m = false := by
        cases h : isMatchingGetPayload id m with
        | false => rfl
        | true => exact absurd h hmg
      by_cases hkp : st.knownPort = some p
      · have hpq' : p ≠ q := by
          intro hc
          exact h1 (by rw [← hc]; exact hkp)
        have hres := ih st h1 hrest
        cases hg : genericHandle id m with
        | some effs =>
          constructor
          · simp [runTrace, listenerStep, hmg', hkp, hg, List.all_append,
                  hres.1, List.all_eq_true, hpq']
          · simp [runTrace, listenerStep, hmg', hkp, hg, hres.2]
        | none =>
          constructor <;>
            simp [runTrace, listenerStep, hmg', hkp, hg, hres.1, hres.2]
      · have hres := ih st h1 hrest
        constructor <;>
          simp [runTrace, listenerStep, hmg', hkp, hres.1, hres.2]

/-- C1 counterexample: the claim says that once channel 0 has performed the
fetch-payload handshake for the id, it is the only channel bound to it and
any message referencing the id on a different channel is ignored and cannot
resolve the confirmation. But `knownPort` is reassigned on every matching
fetch-payload message (dapp.ts:430), so after channel 0's handshake,
channel 1's handshake for the same id is answered with the payload, rebinds
the id to channel 1, and channel 1's subsequent decision message resolves
and closes the confirmation. -/
theorem handshake_rebinding_counterexample :
    runTrace "cid" ⟨none⟩
        [(0, .getPayload "cid"), (1, .getPayload "cid"),
         (1, .confirmation "cid" true)] =
      (⟨some 1⟩,
       [(0, .answerPayload), (1, .answerPayload), (1, .resolveConf),
        (1, .closeConf)]) := by
  rfl

/-- C1 (amended): at most one channel is bound to an id at a time — the one
whose matching fetch-payload message was processed most recently, a later
handshake from another channel rebinding the id — and a channel that never
performed the fetch-payload handshake for the id produces no effect at all:
in particular its decision messages, even with the correct id, are ignored
and never resolve the confirmation. -/
theorem unbound_channel_cannot_act (id : String) (q : Nat)
    (tr : List (Nat × InMsg))
    (h : tr.all (fun pm => pm.1 != q || !(isMatchingGetPayload id pm.2)) =
      true) :
    ((runTrace id ⟨none⟩ tr).2.all (fun pe => pe.1 != q)) = true :=
  (runTrace_never_handshaker id q tr ⟨none⟩ (by simp) h).1

/-- Witness for C1 (amended): channel 1 sends a correct-id decision without
ever having performed the handshake; every produced effect belongs to
channel 0. -/
theorem unbound_channel_cannot_act_witness :
    ((runTrace "cid" ⟨none⟩
        [(0, .getPayload "cid"),
         (1, .confirmation "cid" true)]).2.all (fun pe => pe.1 != 1)) =
      true :=
  unbound_channel_cannot_act "cid" 1
    [(0, .getPayload "cid"), (1, .confirmation "cid" true)] (by rfl)

end ThanosDApp
